import Mathlib

/-!
Formal model of the coupon allocation and eligibility engine of
`src/main.py` (the velvenode coupon system).

Modelling conventions:

* Timestamps are integers counting UTC seconds; a Python
  `timedelta(minutes=m)` becomes `60 * m` on this scale, and
  `int((a - b).total_seconds())` becomes `a - b`.  `ensure_utc` is the
  identity (all instants are already normalized).
* Monetary tier values (Python floats) are rationals; float comparison is
  exact equality, and a Python float is integral (`quota == int(quota)`)
  exactly when the rational's denominator is 1.
* The Python string conversions applied to tier values (`str(float)`,
  `str(int)`, `float(str)`) are injected as an explicit record of functions
  (`PyStr`); every property proved below holds for all such records.
* Database rows are modelled without their auto-increment ids; queries are
  list traversals in insertion order (the `order_by` clauses of the source
  only affect the order of returned rows, never the values the engine
  computes from them).
* JSON dictionaries (`quota_weights`, `quota_stock`) are association lists
  keyed by strings.
* Each request handler works on one consistent state; an exception raised
  before `db.commit()` rolls the session back, so error exits return the
  unchanged incoming state.
-/

namespace Coupon

/-- One row of the `coupon_pool` table (source class `CouponPool`). -/
structure CouponPool where
  coupon_code : String
  quota_dollars : ℚ
  is_claimed : Bool
  claimed_by_user_id : Option ℤ
  claimed_by_username : Option String
  claimed_at : Option ℤ
  source : String
deriving DecidableEq

/-- One row of the `claim_records` table (source class `ClaimRecord`). -/
structure ClaimRecord where
  user_id : ℤ
  username : String
  coupon_code : String
  quota_dollars : ℚ
  claim_time : ℤ
  cooldown_expires_at : Option ℤ
  auto_redeemed : Bool
deriving DecidableEq

/-- Typed view of the `system_config` key-value table; `none` models an
absent (or falsy) configuration row, in which case the getters below fall
back to the source's defaults exactly as `get_config(db, key)` does. -/
structure SystemConfig where
  cooldown_minutes : Option ℤ
  claim_times : Option ℤ
  quota_weights : Option (List (String × ℚ))
  quota_stock : Option (List (String × ℤ))
  claim_mode : Option String
  probability_mode : Option String
  quota_rate : Option ℤ
deriving DecidableEq

/-- The database state the engine reads and writes. -/
structure DBState where
  coupon_pool : List CouponPool
  claim_records : List ClaimRecord
  config : SystemConfig
deriving DecidableEq

def DEFAULT_COOLDOWN_MINUTES : ℤ := 480

def DEFAULT_CLAIM_TIMES : ℤ := 1

def DEFAULT_QUOTA_WEIGHTS : List (String × ℚ) :=
  [("1", 50), ("5", 30), ("10", 15), ("50", 4), ("100", 1)]

def DEFAULT_QUOTA_STOCK : List (String × ℤ) :=
  [("1", 100), ("5", 50), ("10", 20), ("50", 5), ("100", 1)]

def DEFAULT_CLAIM_MODE : String := "B"

/-- Source `get_cooldown_minutes`. -/
def get_cooldown_minutes (db : DBState) : ℤ :=
  (db.config.cooldown_minutes).getD DEFAULT_COOLDOWN_MINUTES

/-- Source `get_claim_times`: `max(1, int(val)) if val else 1`. -/
def get_claim_times (db : DBState) : ℤ :=
  match db.config.claim_times with
  | some v => max 1 v
  | none => DEFAULT_CLAIM_TIMES

/-- Source `get_quota_weights`. -/
def get_quota_weights (db : DBState) : List (String × ℚ) :=
  (db.config.quota_weights).getD DEFAULT_QUOTA_WEIGHTS

/-- Source `get_quota_stock`. -/
def get_quota_stock (db : DBState) : List (String × ℤ) :=
  (db.config.quota_stock).getD DEFAULT_QUOTA_STOCK

/-- Source `get_claim_mode`: the stored value when it is `"A"` or `"B"`,
else the default mode `"B"`. -/
def get_claim_mode (db : DBState) : String :=
  match db.config.claim_mode with
  | some v => if v = "A" ∨ v = "B" then v else DEFAULT_CLAIM_MODE
  | none => DEFAULT_CLAIM_MODE

/-- Source `get_probability_mode`: the stored value when it is
`"weight_only"` or `"weight_stock"`, else `"weight_stock"`. -/
def get_probability_mode (db : DBState) : String :=
  match db.config.probability_mode with
  | some v => if v = "weight_only" ∨ v = "weight_stock" then v else "weight_stock"
  | none => "weight_stock"

/-- Python `int(d.get(k, 0))` on a string-keyed dictionary. -/
def assoc_get (l : List (String × ℤ)) (k : String) : ℤ :=
  match l with
  | [] => 0
  | (k', v) :: t => if k' = k then v else assoc_get t k

/-- Python `k in d` on a string-keyed dictionary. -/
def assoc_has (l : List (String × ℤ)) (k : String) : Bool :=
  match l with
  | [] => false
  | (k', _) :: t => if k' = k then true else assoc_has t k

/-- Python `d[k] = v` on a string-keyed dictionary. -/
def assoc_set (l : List (String × ℤ)) (k : String) (v : ℤ) : List (String × ℤ) :=
  match l with
  | [] => [(k, v)]
  | (k', v') :: t => if k' = k then (k, v) :: t else (k', v') :: assoc_set t k v

/-- The Python string conversions used on tier values: `str(float)`,
`str(int)` and `float(str)`.  They are parameters of the model; the
properties below hold for every choice of them. -/
structure PyStr where
  ofRat : ℚ → String
  ofInt : ℤ → String
  parseFloat : String → ℚ

/-- Source `get_stock_key`: prefer the key `str(quota)`; else, when the
quota is integral, try `str(int(quota))`; else fall back to `str(quota)`. -/
def get_stock_key (ps : PyStr) (quota_stock : List (String × ℤ)) (quota : ℚ) : String :=
  if assoc_has quota_stock (ps.ofRat quota) then ps.ofRat quota
  else if quota.den = 1 ∧ assoc_has quota_stock (ps.ofInt quota.num) then ps.ofInt quota.num
  else ps.ofRat quota

/-- Count of all unclaimed local pool entries (any tier). -/
def unclaimed_local_count (db : DBState) : ℤ :=
  ((db.coupon_pool.filter fun e => decide (e.is_claimed = false)).length : ℤ)

/-- Source `get_total_available_stock`. -/
def get_total_available_stock (db : DBState) : ℤ :=
  if get_claim_mode db = "A" then
    max (unclaimed_local_count db) ((get_quota_stock db).map fun p => max 0 p.2).sum
  else ((get_quota_stock db).map fun p => max 0 p.2).sum

/-- Count of unclaimed local pool entries of one tier. -/
def local_unclaimed_count (db : DBState) (quota : ℚ) : ℤ :=
  ((db.coupon_pool.filter fun e =>
      decide (e.is_claimed = false ∧ e.quota_dollars = quota)).length : ℤ)

/-- The per-tier effective stock computed inside `draw_random_quota`
(source lines 420-429): `max(local, virtual)` in mode `"A"`, the virtual
stock alone otherwise. -/
def effective_stock (ps : PyStr) (db : DBState) (quota : ℚ) : ℤ :=
  if get_claim_mode db = "A" then
    max (local_unclaimed_count db quota)
      (assoc_get (get_quota_stock db) (get_stock_key ps (get_quota_stock db) quota))
  else assoc_get (get_quota_stock db) (get_stock_key ps (get_quota_stock db) quota)

/-- The `available` list built by `draw_random_quota` (source lines
415-440): each configured tier with positive effective stock, paired with
its actual selection weight. -/
def draw_available (ps : PyStr) (db : DBState) : List (ℚ × ℚ) :=
  (get_quota_weights db).filterMap fun p =>
    if 0 < effective_stock ps db (ps.parseFloat p.1) then
      some (ps.parseFloat p.1,
        if get_probability_mode db = "weight_only" then p.2
        else p.2 * ((effective_stock ps db (ps.parseFloat p.1) : ℚ)))
    else none

/-- Source `draw_random_quota`.  The weighted random draw of
`random.choices` is modelled by an arbitrary index `pick`: the set of
possible outcomes is (a superset of) the members of `available`, and the
empty list yields `none` exactly as in the source. -/
def draw_random_quota (ps : PyStr) (db : DBState) (pick : ℕ) : Option ℚ :=
  ((draw_available ps db).get? (pick % (draw_available ps db).length)).map (·.1)

/-- Source `deduct_virtual_stock`: returns the updated state and whether a
unit of virtual stock was actually deducted. -/
def deduct_virtual_stock (ps : PyStr) (db : DBState) (quota : ℚ) : DBState × Bool :=
  if 0 < assoc_get (get_quota_stock db) (get_stock_key ps (get_quota_stock db) quota) then
    ({ db with config := { db.config with
        quota_stock := some (assoc_set (get_quota_stock db)
          (get_stock_key ps (get_quota_stock db) quota)
          (assoc_get (get_quota_stock db) (get_stock_key ps (get_quota_stock db) quota) - 1)) } },
      true)
  else (db, false)

/-- Source `get_local_coupon`: the first unclaimed pool entry of the tier. -/
def get_local_coupon (db : DBState) (quota : ℚ) : Option CouponPool :=
  db.coupon_pool.find? fun e => decide (e.is_claimed = false ∧ e.quota_dollars = quota)

/-- In-place mutation of the first unclaimed pool entry of the tier (the
row `get_local_coupon` returns), marking it claimed. -/
def mark_claimed_first (pool : List CouponPool) (quota : ℚ) (user_id : ℤ)
    (username : String) (now : ℤ) : List CouponPool :=
  match pool with
  | [] => []
  | e :: t =>
    if e.is_claimed = false ∧ e.quota_dollars = quota then
      { e with
        is_claimed := true
        claimed_by_user_id := some user_id
        claimed_by_username := some username
        claimed_at := some now } :: t
    else e :: mark_claimed_first t quota user_id username now

/-- Per-record actual expiry (source lines 512-515): the minimum of the
expiry recomputed under the current cooldown and the expiry stored at
write time, falling back to the recomputed one when nothing is stored. -/
def claim_actual_expiry (cooldown_minutes : ℤ) (r : ClaimRecord) : ℤ :=
  match r.cooldown_expires_at with
  | some stored => min (r.claim_time + 60 * cooldown_minutes) stored
  | none => r.claim_time + 60 * cooldown_minutes

/-- The rows returned by the lookback query of
`calculate_user_cooldown_status` (source lines 505-509). -/
def recent_user_claims (db : DBState) (user_id now cooldown_minutes : ℤ) : List ClaimRecord :=
  db.claim_records.filter fun r =>
    decide (r.user_id = user_id ∧ now - 60 * (cooldown_minutes * 2) ≤ r.claim_time)

/-- The still-active records among a list, with their actual expiries
(source lines 510-517). -/
def active_claims_of (cooldown_minutes now : ℤ) (l : List ClaimRecord) :
    List (ClaimRecord × ℤ) :=
  l.filterMap fun r =>
    if now < claim_actual_expiry cooldown_minutes r then
      some (r, claim_actual_expiry cooldown_minutes r)
    else none

/-- The tail of `calculate_user_cooldown_status` (source lines 520-526):
the can-claim flag and the cooldown seconds computed from the active
records; Python's `min(...)` over a non-empty sequence is a fold of the
binary minimum. -/
def cooldown_outcome (claim_times now : ℤ) (active : List (ClaimRecord × ℤ)) : Bool × ℤ :=
  if claim_times ≤ (active.length : ℤ) ∧ active.isEmpty = false then
    match active with
    | [] => (true, 0)
    | h :: t =>
      if now < t.foldl (fun a x => min a x.2) h.2 then
        (false, t.foldl (fun a x => min a x.2) h.2 - now)
      else (true, 0)
  else (true, 0)

/-- Source `calculate_user_cooldown_status`: returns
`(can_claim, remaining_claims, cooldown_seconds, recent_claims)`. -/
def calculate_user_cooldown_status (db : DBState) (user_id now : ℤ) :
    Bool × ℤ × ℤ × List ClaimRecord :=
  ((cooldown_outcome (get_claim_times db) now
      (active_claims_of (get_cooldown_minutes db) now
        (recent_user_claims db user_id now (get_cooldown_minutes db)))).1,
   max 0 (get_claim_times db -
     ((active_claims_of (get_cooldown_minutes db) now
        (recent_user_claims db user_id now (get_cooldown_minutes db))).length : ℤ)),
   (cooldown_outcome (get_claim_times db) now
      (active_claims_of (get_cooldown_minutes db) now
        (recent_user_claims db user_id now (get_cooldown_minutes db)))).2,
   recent_user_claims db user_id now (get_cooldown_minutes db))

/-- The first three components of `calculate_user_cooldown_status`
(can-claim, remaining claims, cooldown seconds). -/
def cooldown_result (db : DBState) (user_id now : ℤ) : Bool × ℤ × ℤ :=
  ((calculate_user_cooldown_status db user_id now).1,
   (calculate_user_cooldown_status db user_id now).2.1,
   (calculate_user_cooldown_status db user_id now).2.2.1)

/-- Spec §4.1 comparator for the refinement claim: the same evaluation run
over the user's entire claim history, with no lookback window at all. -/
def spec_evaluate_whole_history (db : DBState) (user_id now : ℤ) : Bool × ℤ × ℤ :=
  ((cooldown_outcome (get_claim_times db) now
      (active_claims_of (get_cooldown_minutes db) now
        (db.claim_records.filter fun r => decide (r.user_id = user_id)))).1,
   max 0 (get_claim_times db -
     ((active_claims_of (get_cooldown_minutes db) now
        (db.claim_records.filter fun r => decide (r.user_id = user_id))).length : ℤ)),
   (cooldown_outcome (get_claim_times db) now
      (active_claims_of (get_cooldown_minutes db) now
        (db.claim_records.filter fun r => decide (r.user_id = user_id)))).2)

/-- The failure exits of the `/api/claim` handler. -/
inductive ClaimError
  /-- HTTP 400, "cooling down, retry in ..." (source lines 727-732). -/
  | coolingDown (seconds : ℤ)
  /-- HTTP 400, "codes exhausted, wait for refill" (source line 736). -/
  | poolExhausted
  /-- HTTP 400, "no code available" (source line 741). -/
  | noQuota
  /-- HTTP 500, "code generation failed, retry later" (source line 788). -/
  | allocationFailed
deriving DecidableEq

/-- The success payload of the `/api/claim` handler (source lines 803-812). -/
structure ClaimSuccess where
  coupon_code : String
  quota : ℚ
  remaining_claims : ℤ
  auto_redeemed : Bool
  claim_mode : String
deriving DecidableEq

inductive ClaimResult
  | ok (v : ClaimSuccess)
  | err (e : ClaimError)
deriving DecidableEq

/-- Result of one claim request: the response, the committed database
state, and whether the external mint API was called. -/
structure ClaimOutcome where
  result : ClaimResult
  state : DBState
  mint_called : Bool
deriving DecidableEq

/-- Environment of one claim request: the index drawn by the weighted
lottery, the outcome of the external mint call
(`create_redemption_code_via_api`; `none` models every failure mode), and
the outcome of the best-effort top-up (`topup_user_by_session`). -/
structure MintEnv where
  pick : ℕ
  mint_result : Option String
  topup_ok : Bool
deriving DecidableEq

inductive Phase1Result
  | err (e : ClaimError)
  | ok (cooldown_minutes : ℤ) (claim_mode : String) (quota : ℚ) (remaining : ℤ)
deriving DecidableEq

/-- Python truthiness of an optional string (`if main_session and ...`). -/
def truthy_str : Option String → Bool
  | none => false
  | some s => decide (s ≠ "")

/-- The `minted` pool entry the handler inserts after a successful mint
(source lines 758-767 and 772-781). -/
def new_minted_entry (code : String) (quota : ℚ) (user_id : ℤ) (username : String)
    (now : ℤ) : CouponPool :=
  ⟨code, quota, true, some user_id, some username, some now, "api"⟩

/-- The claim record written at the end of a successful claim (source
lines 790-800): the stored expiry is `now + cooldown_minutes` under the
policy in effect at write time. -/
def new_claim_record (user_id : ℤ) (username code : String) (quota : ℚ)
    (now cooldown_minutes : ℤ) (auto_redeemed : Bool) : ClaimRecord :=
  ⟨user_id, username, code, quota, now, some (now + 60 * cooldown_minutes), auto_redeemed⟩

/-- Checking and drawing (source lines 722-741): everything the handler
does before its first `await` on the external mint API.  On success it
carries the values the commit phase will use (the cooldown and mode read
before the await, the drawn tier, and the pre-decrement remaining count). -/
def claim_phase1 (ps : PyStr) (db : DBState) (user_id now : ℤ) (pick : ℕ) : Phase1Result :=
  if (calculate_user_cooldown_status db user_id now).1 = false then
    .err (.coolingDown (calculate_user_cooldown_status db user_id now).2.2.1)
  else if get_total_available_stock db ≤ 0 then .err .poolExhausted
  else
    match draw_random_quota ps db pick with
    | none => .err .noQuota
    | some quota =>
      .ok (get_cooldown_minutes db) (get_claim_mode db) quota
        (calculate_user_cooldown_status db user_id now).2.1

/-- Minting / reserving and persisting (source lines 743-812).  Error
exits return the incoming state unchanged: nothing was committed and the
session's pending changes are rolled back.  An empty coupon code is falsy
in Python and is rejected by `if not coupon_code` exactly like a failed
mint. -/
def claim_phase2 (ps : PyStr) (db : DBState) (user_id : ℤ) (username : String)
    (main_session : Option String) (now cooldown_minutes : ℤ) (claim_mode : String)
    (quota : ℚ) (remaining : ℤ) (env : MintEnv) : ClaimOutcome :=
  if claim_mode = "A" then
    match get_local_coupon db quota with
    | some lc =>
      if lc.coupon_code = "" then ⟨.err .allocationFailed, db, false⟩
      else
        ⟨.ok ⟨lc.coupon_code, quota, remaining - 1, false, claim_mode⟩,
          { db with
            coupon_pool := mark_claimed_first db.coupon_pool quota user_id username now
            claim_records := db.claim_records ++
              [new_claim_record user_id username lc.coupon_code quota now cooldown_minutes false] },
          false⟩
    | none =>
      match env.mint_result with
      | none => ⟨.err .allocationFailed, db, true⟩
      | some code =>
        if code = "" then ⟨.err .allocationFailed, db, true⟩
        else
          ⟨.ok ⟨code, quota, remaining - 1, false, claim_mode⟩,
            { (deduct_virtual_stock ps db quota).1 with
              coupon_pool := (deduct_virtual_stock ps db quota).1.coupon_pool ++
                [new_minted_entry code quota user_id username now]
              claim_records := (deduct_virtual_stock ps db quota).1.claim_records ++
                [new_claim_record user_id username code quota now cooldown_minutes false] },
            true⟩
  else
    match env.mint_result with
    | none => ⟨.err .allocationFailed, db, true⟩
    | some code =>
      if code = "" then ⟨.err .allocationFailed, db, true⟩
      else
        ⟨.ok ⟨code, quota, remaining - 1, truthy_str main_session && env.topup_ok, claim_mode⟩,
          { (deduct_virtual_stock ps db quota).1 with
            coupon_pool := (deduct_virtual_stock ps db quota).1.coupon_pool ++
              [new_minted_entry code quota user_id username now]
            claim_records := (deduct_virtual_stock ps db quota).1.claim_records ++
              [new_claim_record user_id username code quota now cooldown_minutes
                (truthy_str main_session && env.topup_ok)] },
          true⟩

/-- Source `claim_coupon` for one request (after session resolution):
checking and drawing, then minting and persisting on the same state. -/
def claim_coupon (ps : PyStr) (db : DBState) (user_id : ℤ) (username : String)
    (main_session : Option String) (now : ℤ) (env : MintEnv) : ClaimOutcome :=
  match claim_phase1 ps db user_id now env.pick with
  | .err e => ⟨.err e, db, false⟩
  | .ok cooldown_minutes claim_mode quota remaining =>
    claim_phase2 ps db user_id username main_session now cooldown_minutes claim_mode
      quota remaining env

/-- Two claim requests by the same user interleaved by the single-threaded
event loop.  Each request's checking phase contains no `await` and is
atomic; request A then suspends on the external mint call, request B runs
its checking phase against the still-uncommitted state, and the two commit
phases run in order.  Returns both responses and the final state. -/
def claim_concurrent_same_user (ps : PyStr) (db : DBState) (user_id : ℤ)
    (username : String) (msA msB : Option String) (now : ℤ) (envA envB : MintEnv) :
    ClaimResult × ClaimResult × DBState :=
  match claim_phase1 ps db user_id now envA.pick with
  | .err e =>
    ((.err e),
      (claim_coupon ps db user_id username msB now envB).result,
      (claim_coupon ps db user_id username msB now envB).state)
  | .ok cmA modeA qA remA =>
    match claim_phase1 ps db user_id now envB.pick with
    | .err e =>
      ((claim_phase2 ps db user_id username msA now cmA modeA qA remA envA).result,
        (.err e),
        (claim_phase2 ps db user_id username msA now cmA modeA qA remA envA).state)
    | .ok cmB modeB qB remB =>
      ((claim_phase2 ps db user_id username msA now cmA modeA qA remA envA).result,
        (claim_phase2 ps
            (claim_phase2 ps db user_id username msA now cmA modeA qA remA envA).state
            user_id username msB now cmB modeB qB remB envB).result,
        (claim_phase2 ps
            (claim_phase2 ps db user_id username msA now cmA modeA qA remA envA).state
            user_id username msB now cmB modeB qB remB envB).state)

/-! Concrete fixtures used by the witness theorems. -/

/-- A concrete instance of the Python string conversions, adequate for the
single-tier fixtures below. -/
def psLit : PyStr := ⟨fun _ => "1", fun _ => "1", fun _ => 1⟩

/-- Mode-B state with one configured tier of weight 1 and virtual stock 5. -/
def dbTwo : DBState :=
  ⟨[], [], ⟨none, none, some [("1", 1)], some [("1", 5)], some "B", none, none⟩⟩

/-- Mode-B state whose only tier has virtual stock 0. -/
def dbZ : DBState :=
  ⟨[], [], ⟨none, none, some [("1", 1)], some [("1", 0)], some "B", none, none⟩⟩

/-- One unclaimed manually loaded pool entry of tier 1. -/
def poolA : List CouponPool := [⟨"abc", 1, false, none, none, none, "manual"⟩]

/-- Mode-A state with one unclaimed local entry and virtual stock 100. -/
def dbA : DBState :=
  ⟨poolA, [], ⟨none, none, some [("1", 1)], some [("1", 100)], some "A", none, none⟩⟩

/-- A claim record with a stored cooldown expiry. -/
def recW : ClaimRecord := ⟨7, "alice", "c1", 1, 1000, some 2000, false⟩

/-- A pre-migration claim record without a stored cooldown expiry. -/
def recN : ClaimRecord := ⟨7, "alice", "c2", 1, 1000, none, false⟩

/-- State with a 10-minute cooldown and the stored-expiry record. -/
def dbW : DBState :=
  ⟨[], [recW], ⟨some 10, none, none, none, none, none, none⟩⟩

/-- State with a 10-minute cooldown and the no-stored-expiry record. -/
def dbN : DBState :=
  ⟨[], [recN], ⟨some 10, none, none, none, none, none, none⟩⟩

/-- A record claimed at time 0 under a 480-minute cooldown. -/
def recC6 : ClaimRecord := ⟨7, "alice", "c3", 1, 0, some 28800, false⟩

/-- State with a 480-minute cooldown and the old record. -/
def dbC6 : DBState :=
  ⟨[], [recC6], ⟨some 480, none, none, none, none, none, none⟩⟩

def envA : MintEnv := ⟨0, some "codeA", false⟩

def envB : MintEnv := ⟨0, some "codeB", false⟩

def envFail : MintEnv := ⟨0, none, false⟩

def envOk : MintEnv := ⟨0, some "codeX", false⟩

/-! Helper lemmas. -/

lemma mem_active_claims_of {c now : ℤ} {l : List ClaimRecord} {x : ClaimRecord × ℤ} :
    x ∈ active_claims_of c now l ↔
      x.1 ∈ l ∧ x.2 = claim_actual_expiry c x.1 ∧ now < claim_actual_expiry c x.1 := by
  unfold active_claims_of
  rw [List.mem_filterMap]
  constructor
  · rintro ⟨a, ha, hf⟩
    by_cases h : now < claim_actual_expiry c a
    · rw [if_pos h] at hf
      cases hf
      exact ⟨ha, rfl, h⟩
    · rw [if_neg h] at hf
      cases hf
  · rintro ⟨h1, h2, h3⟩
    refine ⟨x.1, h1, ?_⟩
    rw [if_pos h3]
    cases x with
    | mk a b =>
      simp only at h2
      rw [h2]

lemma mem_map_active {c now : ℤ} {l : List ClaimRecord} {r : ClaimRecord} :
    r ∈ (active_claims_of c now l).map (·.1) ↔ r ∈ l ∧ now < claim_actual_expiry c r := by
  rw [List.mem_map]
  constructor
  · rintro ⟨x, hx, hx1⟩
    rcases mem_active_claims_of.mp hx with ⟨h1, _, h3⟩
    rw [← hx1]
    exact ⟨h1, h3⟩
  · rintro ⟨h1, h2⟩
    exact ⟨(r, claim_actual_expiry c r), mem_active_claims_of.mpr ⟨h1, rfl, h2⟩, rfl⟩

lemma claim_actual_expiry_le (c : ℤ) (r : ClaimRecord) :
    claim_actual_expiry c r ≤ r.claim_time + 60 * c := by
  unfold claim_actual_expiry
  cases r.cooldown_expires_at with
  | none => exact le_refl _
  | some e => exact min_le_left _ _

lemma claim_actual_expiry_mono {c c' : ℤ} (h : c' ≤ c) (r : ClaimRecord) :
    claim_actual_expiry c' r ≤ claim_actual_expiry c r := by
  have hconfig : r.claim_time + 60 * c' ≤ r.claim_time + 60 * c := by linarith
  unfold claim_actual_expiry
  cases r.cooldown_expires_at with
  | none => exact hconfig
  | some e => exact min_le_min hconfig (le_refl e)

lemma active_claims_of_cons (c now : ℤ) (r : ClaimRecord) (l : List ClaimRecord) :
    active_claims_of c now (r :: l) =
      (if now < claim_actual_expiry c r then [(r, claim_actual_expiry c r)] else []) ++
        active_claims_of c now l := by
  unfold active_claims_of
  rw [List.filterMap_cons]
  by_cases h : now < claim_actual_expiry c r
  · rw [if_pos h, if_pos h]
    rfl
  · rw [if_neg h, if_neg h]
    rfl

lemma active_length_eq_countP (c now : ℤ) (l : List ClaimRecord) :
    (active_claims_of c now l).length =
      l.countP fun r => decide (now < claim_actual_expiry c r) := by
  induction l with
  | nil => rfl
  | cons r t ih =>
    rw [active_claims_of_cons, List.countP_cons, List.length_append, ih]
    by_cases h : now < claim_actual_expiry c r
    · rw [if_pos h]
      simp [h]
      omega
    · rw [if_neg h]
      simp [h]

lemma active_length_mono (now : ℤ) (l : List ClaimRecord) {c c' : ℤ} (h : c' ≤ c) :
    (active_claims_of c' now l).length ≤ (active_claims_of c now l).length := by
  rw [active_length_eq_countP, active_length_eq_countP]
  apply List.countP_mono_left
  intro r _ hr
  simp only [decide_eq_true_eq] at hr ⊢
  exact lt_of_lt_of_le hr (claim_actual_expiry_mono h r)

lemma active_lookback_eq (u now : ℤ) {c : ℤ} (hc : 0 ≤ c) (l : List ClaimRecord) :
    active_claims_of c now (l.filter fun r =>
        decide (r.user_id = u ∧ now - 60 * (c * 2) ≤ r.claim_time)) =
      active_claims_of c now (l.filter fun r => decide (r.user_id = u)) := by
  induction l with
  | nil => rfl
  | cons r t ih =>
    rw [List.filter_cons, List.filter_cons]
    by_cases hu : r.user_id = u
    · by_cases ht : now - 60 * (c * 2) ≤ r.claim_time
      · rw [if_pos (decide_eq_true ⟨hu, ht⟩), if_pos (decide_eq_true hu),
          active_claims_of_cons, active_claims_of_cons, ih]
      · have hdrop : ¬ now < claim_actual_expiry c r := by
          have h1 := claim_actual_expiry_le c r
          have h2 : r.claim_time < now - 60 * (c * 2) := not_le.mp ht
          intro hcon
          linarith
        rw [if_neg, if_pos (decide_eq_true hu), active_claims_of_cons, if_neg hdrop,
          List.nil_append, ih]
        simp [hu, ht]
    · rw [if_neg, if_neg, ih]
      · simp [hu]
      · simp [hu]

lemma one_le_get_claim_times (db : DBState) : 1 ≤ get_claim_times db := by
  unfold get_claim_times
  cases db.config.claim_times with
  | none => norm_num [DEFAULT_CLAIM_TIMES]
  | some v => exact le_max_left 1 v

lemma active_mem_lt {c now : ℤ} {l : List ClaimRecord} {x : ClaimRecord × ℤ}
    (hx : x ∈ active_claims_of c now l) : now < x.2 := by
  rcases mem_active_claims_of.mp hx with ⟨-, h2, h3⟩
  rw [h2]
  exact h3

lemma foldl_min_lt (now : ℤ) (t : List (ClaimRecord × ℤ)) (a : ℤ) (ha : now < a)
    (ht : ∀ x ∈ t, now < x.2) : now < t.foldl (fun b x => min b x.2) a := by
  induction t generalizing a with
  | nil => exact ha
  | cons y ys ih =>
    refine ih (min a y.2) (lt_min ha (ht y (List.mem_cons_self y ys))) ?_
    intro x hx
    exact ht x (List.mem_cons_of_mem y hx)

lemma calc_can_claim_iff (db : DBState) (u now : ℤ) :
    (calculate_user_cooldown_status db u now).1 = true ↔
      ((active_claims_of (get_cooldown_minutes db) now
          (recent_user_claims db u now (get_cooldown_minutes db))).length : ℤ)
        < get_claim_times db := by
  have hout : (calculate_user_cooldown_status db u now).1 =
      (cooldown_outcome (get_claim_times db) now
        (active_claims_of (get_cooldown_minutes db) now
          (recent_user_claims db u now (get_cooldown_minutes db)))).1 := rfl
  rw [hout]
  set k := get_claim_times db with hk
  set active := active_claims_of (get_cooldown_minutes db) now
    (recent_user_claims db u now (get_cooldown_minutes db)) with hA
  unfold cooldown_outcome
  by_cases hge : k ≤ (active.length : ℤ)
  · have hk1 : 1 ≤ k := one_le_get_claim_times db
    have hlen : 1 ≤ (active.length : ℤ) := le_trans hk1 hge
    cases hAc : active with
    | nil =>
      rw [hAc] at hlen
      simp at hlen
    | cons h t =>
      rw [hAc] at hge
      rw [if_pos ⟨hge, rfl⟩]
      have hallt : ∀ x ∈ active, now < x.2 := fun x hx => active_mem_lt hx
      rw [hAc] at hallt
      have hhead : now < h.2 := hallt h (List.mem_cons_self h t)
      have htail : ∀ x ∈ t, now < x.2 := fun x hx => hallt x (List.mem_cons_of_mem h hx)
      have hmin : now < t.foldl (fun b x => min b x.2) h.2 := foldl_min_lt now t h.2 hhead htail
      refine iff_of_false ?_ (not_lt.mpr hge)
      intro hcon
      simp [hmin] at hcon
  · rw [if_neg fun hcon => hge hcon.1]
    exact iff_of_true rfl (not_le.mp hge)

lemma filterMap_ext {α β : Type} (l : List α) {f g : α → Option β}
    (h : ∀ a ∈ l, f a = g a) : l.filterMap f = l.filterMap g := by
  induction l with
  | nil => rfl
  | cons a t ih =>
    rw [List.filterMap_cons, List.filterMap_cons, h a (List.mem_cons_self a t),
      ih fun x hx => h x (List.mem_cons_of_mem a hx)]

lemma claim_coupon_phase1_err (ps : PyStr) (db : DBState) (u : ℤ) (un : String)
    (ms : Option String) (now : ℤ) (env : MintEnv) (e : ClaimError)
    (h : claim_phase1 ps db u now env.pick = .err e) :
    claim_coupon ps db u un ms now env = ⟨.err e, db, false⟩ := by
  unfold claim_coupon
  rw [h]

lemma claim_coupon_phase1_ok (ps : PyStr) (db : DBState) (u : ℤ) (un : String)
    (ms : Option String) (now : ℤ) (env : MintEnv) (cm : ℤ) (mode : String) (q : ℚ)
    (rem : ℤ) (h : claim_phase1 ps db u now env.pick = .ok cm mode q rem) :
    claim_coupon ps db u un ms now env =
      claim_phase2 ps db u un ms now cm mode q rem env := by
  unfold claim_coupon
  rw [h]

lemma claim_phase2_A_local (ps : PyStr) (db : DBState) (u : ℤ) (un : String)
    (ms : Option String) (now cm : ℤ) (q : ℚ) (rem : ℤ) (env : MintEnv) (lc : CouponPool)
    (h : get_local_coupon db q = some lc) :
    claim_phase2 ps db u un ms now cm "A" q rem env =
      if lc.coupon_code = "" then ⟨.err .allocationFailed, db, false⟩
      else
        ⟨.ok ⟨lc.coupon_code, q, rem - 1, false, "A"⟩,
          { db with
            coupon_pool := mark_claimed_first db.coupon_pool q u un now
            claim_records := db.claim_records ++
              [new_claim_record u un lc.coupon_code q now cm false] },
          false⟩ := by
  unfold claim_phase2
  rw [if_pos rfl, h]

lemma claim_phase2_A_mint_fail (ps : PyStr) (db : DBState) (u : ℤ) (un : String)
    (ms : Option String) (now cm : ℤ) (q : ℚ) (rem : ℤ) (env : MintEnv)
    (h : get_local_coupon db q = none) (hm : env.mint_result = none) :
    claim_phase2 ps db u un ms now cm "A" q rem env = ⟨.err .allocationFailed, db, true⟩ := by
  unfold claim_phase2
  rw [if_pos rfl, h, hm]

lemma claim_phase2_A_mint (ps : PyStr) (db : DBState) (u : ℤ) (un : String)
    (ms : Option String) (now cm : ℤ) (q : ℚ) (rem : ℤ) (env : MintEnv) (code : String)
    (h : get_local_coupon db q = none) (hm : env.mint_result = some code) :
    claim_phase2 ps db u un ms now cm "A" q rem env =
      if code = "" then ⟨.err .allocationFailed, db, true⟩
      else
        ⟨.ok ⟨code, q, rem - 1, false, "A"⟩,
          { (deduct_virtual_stock ps db q).1 with
            coupon_pool := (deduct_virtual_stock ps db q).1.coupon_pool ++
              [new_minted_entry code q u un now]
            claim_records := (deduct_virtual_stock ps db q).1.claim_records ++
              [new_claim_record u un code q now cm false] },
          true⟩ := by
  unfold claim_phase2
  rw [if_pos rfl, h, hm]

lemma claim_phase2_not_A_fail (ps : PyStr) (db : DBState) (u : ℤ) (un : String)
    (ms : Option String) (now cm : ℤ) (mode : String) (q : ℚ) (rem : ℤ) (env : MintEnv)
    (hA : ¬ mode = "A") (hm : env.mint_result = none) :
    claim_phase2 ps db u un ms now cm mode q rem env = ⟨.err .allocationFailed, db, true⟩ := by
  unfold claim_phase2
  rw [if_neg hA, hm]

lemma claim_phase2_not_A_mint (ps : PyStr) (db : DBState) (u : ℤ) (un : String)
    (ms : Option String) (now cm : ℤ) (mode : String) (q : ℚ) (rem : ℤ) (env : MintEnv)
    (code : String) (hA : ¬ mode = "A") (hm : env.mint_result = some code) :
    claim_phase2 ps db u un ms now cm mode q rem env =
      if code = "" then ⟨.err .allocationFailed, db, true⟩
      else
        ⟨.ok ⟨code, q, rem - 1, truthy_str ms && env.topup_ok, mode⟩,
          { (deduct_virtual_stock ps db q).1 with
            coupon_pool := (deduct_virtual_stock ps db q).1.coupon_pool ++
              [new_minted_entry code q u un now]
            claim_records := (deduct_virtual_stock ps db q).1.claim_records ++
              [new_claim_record u un code q now cm (truthy_str ms && env.topup_ok)] },
          true⟩ := by
  unfold claim_phase2
  rw [if_neg hA, hm]

/-- C1: for every user, claim history and evaluation instant, the
eligibility evaluation counts a claim record carrying a stored cooldown
expiry as active exactly when `now` is before the minimum of the expiry
recomputed under the current policy (`claim_time + cooldown_minutes`) and
the expiry stored at write time. -/
theorem claim_C1 (db : DBState) (u now : ℤ) (r : ClaimRecord) (e : ℤ)
    (hc : 0 ≤ get_cooldown_minutes db) (hr : r ∈ db.claim_records)
    (hu : r.user_id = u) (he : r.cooldown_expires_at = some e) :
    r ∈ (active_claims_of (get_cooldown_minutes db) now
        (recent_user_claims db u now (get_cooldown_minutes db))).map (·.1) ↔
      now < min (r.claim_time + 60 * get_cooldown_minutes db) e := by
  have hact : claim_actual_expiry (get_cooldown_minutes db) r =
      min (r.claim_time + 60 * get_cooldown_minutes db) e := by
    unfold claim_actual_expiry
    rw [he]
  rw [mem_map_active, hact]
  constructor
  · rintro ⟨-, h2⟩
    exact h2
  · intro h
    refine ⟨?_, h⟩
    have h1 : now < r.claim_time + 60 * get_cooldown_minutes db :=
      lt_of_lt_of_le h (min_le_left _ _)
    unfold recent_user_claims
    rw [List.mem_filter]
    refine ⟨hr, decide_eq_true ⟨hu, by linarith⟩⟩

/-- C1 witness: the concrete record `recW` (stored expiry 2000, claimed at
1000) evaluated at instant 1500 under a 10-minute cooldown. -/
theorem claim_C1_witness :
    recW ∈ (active_claims_of (get_cooldown_minutes dbW) 1500
        (recent_user_claims dbW 7 1500 (get_cooldown_minutes dbW))).map (·.1) ↔
      1500 < min (recW.claim_time + 60 * get_cooldown_minutes dbW) 2000 :=
  claim_C1 dbW 7 1500 recW 2000 (by decide) (by decide) rfl rfl

/-- C10: a claim record whose stored cooldown expiry is null (for example
a row created before the migration added the column) is counted active
exactly when `now < claim_time + cooldown_minutes` under the current
policy alone; no minimum with a stored expiry is involved. -/
theorem claim_C10 (db : DBState) (u now : ℤ) (r : ClaimRecord)
    (hc : 0 ≤ get_cooldown_minutes db) (hr : r ∈ db.claim_records)
    (hu : r.user_id = u) (he : r.cooldown_expires_at = none) :
    r ∈ (active_claims_of (get_cooldown_minutes db) now
        (recent_user_claims db u now (get_cooldown_minutes db))).map (·.1) ↔
      now < r.claim_time + 60 * get_cooldown_minutes db := by
  have hact : claim_actual_expiry (get_cooldown_minutes db) r =
      r.claim_time + 60 * get_cooldown_minutes db := by
    unfold claim_actual_expiry
    rw [he]
  rw [mem_map_active, hact]
  constructor
  · rintro ⟨-, h2⟩
    exact h2
  · intro h
    refine ⟨?_, h⟩
    unfold recent_user_claims
    rw [List.mem_filter]
    refine ⟨hr, decide_eq_true ⟨hu, by linarith⟩⟩

/-- C10 witness: the concrete record `recN` (no stored expiry, claimed at
1000) evaluated at instant 1500 under a 10-minute cooldown. -/
theorem claim_C10_witness :
    recN ∈ (active_claims_of (get_cooldown_minutes dbN) 1500
        (recent_user_claims dbN 7 1500 (get_cooldown_minutes dbN))).map (·.1) ↔
      1500 < recN.claim_time + 60 * get_cooldown_minutes dbN :=
  claim_C10 dbN 7 1500 recN (by decide) (by decide) rfl rfl

/-- C9: every record active under the minimum-of-two-expiries rule lies
inside the 2-times-cooldown lookback window, so the evaluation restricted
to that window returns the same can-claim flag, remaining count and
cooldown seconds as an evaluation over the user's entire claim history. -/
theorem claim_C9 (db : DBState) (u now : ℤ) (hc : 0 ≤ get_cooldown_minutes db) :
    ((active_claims_of (get_cooldown_minutes db) now
        (db.claim_records.filter fun r => decide (r.user_id = u))).all fun x =>
          decide (now - 60 * (get_cooldown_minutes db * 2) ≤ x.1.claim_time)) = true ∧
      cooldown_result db u now = spec_evaluate_whole_history db u now := by
  have heq : active_claims_of (get_cooldown_minutes db) now
      (recent_user_claims db u now (get_cooldown_minutes db)) =
      active_claims_of (get_cooldown_minutes db) now
        (db.claim_records.filter fun r => decide (r.user_id = u)) :=
    active_lookback_eq u now hc db.claim_records
  constructor
  · rw [List.all_eq_true]
    intro x hx
    rcases mem_active_claims_of.mp hx with ⟨-, -, h3⟩
    have h4 := claim_actual_expiry_le (get_cooldown_minutes db) x.1
    exact decide_eq_true (by linarith)
  · unfold cooldown_result calculate_user_cooldown_status spec_evaluate_whole_history
    rw [heq]

/-- C9 witness: the equivalence evaluated on the concrete state `dbW` at
instant 1500. -/
theorem claim_C9_witness :
    ((active_claims_of (get_cooldown_minutes dbW) 1500
        (dbW.claim_records.filter fun r => decide (r.user_id = 7))).all fun x =>
          decide (1500 - 60 * (get_cooldown_minutes dbW * 2) ≤ x.1.claim_time)) = true ∧
      cooldown_result dbW 7 1500 = spec_evaluate_whole_history dbW 7 1500 :=
  claim_C9 dbW 7 1500 (by decide)

/-- C6: with the claim history and instant held fixed, replacing the
policy's cooldown by any smaller non-negative value can never turn
can-claim from true to false. -/
theorem claim_C6 (db : DBState) (u now c' : ℤ) (h0 : 0 ≤ c')
    (hlt : c' < get_cooldown_minutes db)
    (h : (calculate_user_cooldown_status db u now).1 = true) :
    (calculate_user_cooldown_status
        { db with config := { db.config with cooldown_minutes := some c' } } u now).1 =
      true := by
  have hc : 0 ≤ get_cooldown_minutes db := le_trans h0 (le_of_lt hlt)
  rw [calc_can_claim_iff] at h ⊢
  have e1 : get_cooldown_minutes
      { db with config := { db.config with cooldown_minutes := some c' } } = c' := rfl
  have e2 : get_claim_times
      { db with config := { db.config with cooldown_minutes := some c' } } =
      get_claim_times db := rfl
  rw [e1, e2]
  have hfull' : active_claims_of c' now
      (recent_user_claims
        { db with config := { db.config with cooldown_minutes := some c' } } u now c') =
      active_claims_of c' now
        (db.claim_records.filter fun r => decide (r.user_id = u)) :=
    active_lookback_eq u now h0 db.claim_records
  have hfull : active_claims_of (get_cooldown_minutes db) now
      (recent_user_claims db u now (get_cooldown_minutes db)) =
      active_claims_of (get_cooldown_minutes db) now
        (db.claim_records.filter fun r => decide (r.user_id = u)) :=
    active_lookback_eq u now hc db.claim_records
  rw [hfull']
  rw [hfull] at h
  have hmono := active_length_mono now
    (db.claim_records.filter fun r => decide (r.user_id = u)) (le_of_lt hlt)
  have hmono' : ((active_claims_of c' now
      (db.claim_records.filter fun r => decide (r.user_id = u))).length : ℤ) ≤
      ((active_claims_of (get_cooldown_minutes db) now
        (db.claim_records.filter fun r => decide (r.user_id = u))).length : ℤ) := by
    exact_mod_cast hmono
  exact lt_of_le_of_lt hmono' h

/-- C6 witness: a record claimed at instant 0 under a 480-minute cooldown,
evaluated at instant 30000; shrinking the cooldown to 60 minutes keeps
can-claim true. -/
theorem claim_C6_witness :
    (calculate_user_cooldown_status
        { dbC6 with config := { dbC6.config with cooldown_minutes := some 60 } } 7 30000).1 =
      true :=
  claim_C6 dbC6 7 30000 60 (by decide) (by decide) (by decide)

/-- C3: the tier selector can only ever return a tier whose effective
stock is strictly positive, and when every configured tier has effective
stock at most 0 it returns `none`. -/
theorem claim_C3 (ps : PyStr) (db : DBState) (pick : ℕ) :
    (∀ q : ℚ, draw_random_quota ps db pick = some q → 0 < effective_stock ps db q) ∧
      ((∀ p ∈ get_quota_weights db, effective_stock ps db (ps.parseFloat p.1) ≤ 0) →
        draw_random_quota ps db pick = none) := by
  constructor
  · intro q h
    unfold draw_random_quota at h
    rcases Option.map_eq_some'.mp h with ⟨pr, hget, hq⟩
    have hmem : pr ∈ draw_available ps db := List.get?_mem hget
    unfold draw_available at hmem
    rcases List.mem_filterMap.mp hmem with ⟨p, hp, hf⟩
    by_cases hes : 0 < effective_stock ps db (ps.parseFloat p.1)
    · rw [if_pos hes] at hf
      cases hf
      rw [← hq]
      exact hes
    · rw [if_neg hes] at hf
      cases hf
  · intro hall
    have hav : draw_available ps db = [] := by
      apply List.filterMap_eq_nil_iff.mpr
      intro p hp
      rw [if_neg (not_lt.mpr (hall p hp))]
    unfold draw_random_quota
    rw [hav]
    rfl

/-- C3 witness: on the stocked state the drawn tier 1 has positive
effective stock, and on the all-zero-stock state the draw returns none. -/
theorem claim_C3_witness :
    0 < effective_stock psLit dbTwo 1 ∧ draw_random_quota psLit dbZ 0 = none :=
  ⟨(claim_C3 psLit dbTwo 0).1 1 (by decide), (claim_C3 psLit dbZ 0).2 (by decide)⟩

/-- C5: the effective stock of a tier is `max(local unclaimed count,
virtual stock)` in local-first mode `"A"` and the virtual stock alone in
mint-only mode `"B"`; in mode `"B"` the tier selector never consults the
local pool (its outcome is invariant under replacing the pool). -/
theorem claim_C5 (ps : PyStr) (db : DBState) (q : ℚ) :
    (get_claim_mode db = "A" →
      effective_stock ps db q = max (local_unclaimed_count db q)
        (assoc_get (get_quota_stock db) (get_stock_key ps (get_quota_stock db) q))) ∧
      (get_claim_mode db = "B" →
        effective_stock ps db q =
          assoc_get (get_quota_stock db) (get_stock_key ps (get_quota_stock db) q)) ∧
      (get_claim_mode db = "B" → ∀ (pool : List CouponPool) (pick : ℕ),
        draw_random_quota ps { db with coupon_pool := pool } pick =
          draw_random_quota ps db pick) := by
  refine ⟨?_, ?_, ?_⟩
  · intro h
    unfold effective_stock
    rw [if_pos h]
  · intro h
    unfold effective_stock
    rw [h]
    rw [if_neg (by decide)]
  · intro h pool pick
    have heff : ∀ x : ℚ, effective_stock ps { db with coupon_pool := pool } x =
        effective_stock ps db x := by
      intro x
      unfold effective_stock
      have hmode : get_claim_mode { db with coupon_pool := pool } = get_claim_mode db := rfl
      rw [hmode, h, if_neg (by decide), if_neg (by decide)]
      rfl
    have hav : draw_available ps { db with coupon_pool := pool } = draw_available ps db := by
      unfold draw_available
      refine filterMap_ext _ ?_
      intro p hp
      rw [heff]
      rfl
    unfold draw_random_quota
    rw [hav]

/-- C5 witness: concrete instances of the three conjuncts on the mode-A
and mode-B fixture states. -/
theorem claim_C5_witness :
    (effective_stock psLit dbA 1 = max (local_unclaimed_count dbA 1)
        (assoc_get (get_quota_stock dbA) (get_stock_key psLit (get_quota_stock dbA) 1))) ∧
      (effective_stock psLit dbTwo 1 =
        assoc_get (get_quota_stock dbTwo) (get_stock_key psLit (get_quota_stock dbTwo) 1)) ∧
      draw_random_quota psLit { dbTwo with coupon_pool := poolA } 0 =
        draw_random_quota psLit dbTwo 0 :=
  ⟨(claim_C5 psLit dbA 1).1 (by decide), (claim_C5 psLit dbTwo 1).2.1 (by decide),
    (claim_C5 psLit dbTwo 1).2.2 (by decide) poolA 0⟩

/-- C7: when the total effective stock is not positive, a claim by an
otherwise-eligible user fails with the pool-exhausted error and the
external mint API is never called. -/
theorem claim_C7 (ps : PyStr) (db : DBState) (u : ℤ) (un : String) (ms : Option String)
    (now : ℤ) (env : MintEnv)
    (helig : (calculate_user_cooldown_status db u now).1 = true)
    (hstock : get_total_available_stock db ≤ 0) :
    (claim_coupon ps db u un ms now env).result = ClaimResult.err ClaimError.poolExhausted ∧
      (claim_coupon ps db u un ms now env).mint_called = false := by
  have h1 : claim_phase1 ps db u now env.pick = .err .poolExhausted := by
    unfold claim_phase1
    rw [helig]
    rw [if_neg (by decide), if_pos hstock]
  unfold claim_coupon
  rw [h1]
  exact ⟨rfl, rfl⟩

/-- C7 witness: the all-zero-stock state with an eligible user. -/
theorem claim_C7_witness :
    (claim_coupon psLit dbZ 7 "alice" none 1000 envOk).result =
        ClaimResult.err ClaimError.poolExhausted ∧
      (claim_coupon psLit dbZ 7 "alice" none 1000 envOk).mint_called = false :=
  claim_C7 psLit dbZ 7 "alice" none 1000 envOk (by decide) (by decide)

/-- C2: whenever the external mint call is reached and fails (produces no
code), the claim returns the allocation-failure error and the database
state — coupon pool, virtual stock configuration and claim records — is
exactly the state before the request. -/
theorem claim_C2 (ps : PyStr) (db : DBState) (u : ℤ) (un : String) (ms : Option String)
    (now : ℤ) (env : MintEnv) (hm : env.mint_result = none)
    (hcall : (claim_coupon ps db u un ms now env).mint_called = true) :
    (claim_coupon ps db u un ms now env).result = ClaimResult.err ClaimError.allocationFailed ∧
      (claim_coupon ps db u un ms now env).state = db := by
  cases h1 : claim_phase1 ps db u now env.pick with
  | err e =>
    rw [claim_coupon_phase1_err ps db u un ms now env e h1] at hcall
    simp at hcall
  | ok cm mode q rem =>
    rw [claim_coupon_phase1_ok ps db u un ms now env cm mode q rem h1] at hcall ⊢
    by_cases hA : mode = "A"
    · subst hA
      cases h2 : get_local_coupon db q with
      | some lc =>
        rw [claim_phase2_A_local ps db u un ms now cm q rem env lc h2] at hcall
        by_cases h3 : lc.coupon_code = ""
        · rw [if_pos h3] at hcall
          simp at hcall
        · rw [if_neg h3] at hcall
          simp at hcall
      | none =>
        rw [claim_phase2_A_mint_fail ps db u un ms now cm q rem env h2 hm]
        exact ⟨rfl, rfl⟩
    · rw [claim_phase2_not_A_fail ps db u un ms now cm mode q rem env hA hm]
      exact ⟨rfl, rfl⟩

/-- C2 witness: a failed mint on the stocked mode-B state returns the
allocation-failure error and leaves the state untouched. -/
theorem claim_C2_witness :
    (claim_coupon psLit dbTwo 7 "alice" none 1000 envFail).result =
        ClaimResult.err ClaimError.allocationFailed ∧
      (claim_coupon psLit dbTwo 7 "alice" none 1000 envFail).state = dbTwo :=
  claim_C2 psLit dbTwo 7 "alice" none 1000 envFail rfl (by decide)

/-- C8: the virtual stock configuration changes only when the external
mint API was actually called; in particular a successful local-first claim
fulfilled by reusing an unclaimed pool entry leaves it untouched. -/
theorem claim_C8 (ps : PyStr) (db : DBState) (u : ℤ) (un : String) (ms : Option String)
    (now : ℤ) (env : MintEnv)
    (h : (claim_coupon ps db u un ms now env).mint_called = false) :
    (claim_coupon ps db u un ms now env).state.config.quota_stock =
      db.config.quota_stock := by
  cases h1 : claim_phase1 ps db u now env.pick with
  | err e =>
    rw [claim_coupon_phase1_err ps db u un ms now env e h1]
  | ok cm mode q rem =>
    rw [claim_coupon_phase1_ok ps db u un ms now env cm mode q rem h1] at h ⊢
    by_cases hA : mode = "A"
    · subst hA
      cases h2 : get_local_coupon db q with
      | some lc =>
        rw [claim_phase2_A_local ps db u un ms now cm q rem env lc h2]
        by_cases h3 : lc.coupon_code = ""
        · rw [if_pos h3]
        · rw [if_neg h3]
      | none =>
        cases h4 : env.mint_result with
        | none => rw [claim_phase2_A_mint_fail ps db u un ms now cm q rem env h2 h4]
        | some code =>
          rw [claim_phase2_A_mint ps db u un ms now cm q rem env code h2 h4] at h ⊢
          by_cases h5 : code = ""
          · rw [if_pos h5]
          · rw [if_neg h5] at h
            simp at h
    · cases h4 : env.mint_result with
      | none => rw [claim_phase2_not_A_fail ps db u un ms now cm mode q rem env hA h4]
      | some code =>
        rw [claim_phase2_not_A_mint ps db u un ms now cm mode q rem env code hA h4] at h ⊢
        by_cases h5 : code = ""
        · rw [if_pos h5]
        · rw [if_neg h5] at h
          simp at h

/-- C8 witness: the mode-A claim fulfilled from the local pool leaves the
virtual stock configuration unchanged. -/
theorem claim_C8_witness :
    (claim_coupon psLit dbA 7 "alice" none 1000 envOk).state.config.quota_stock =
      dbA.config.quota_stock :=
  claim_C8 psLit dbA 7 "alice" none 1000 envOk (by decide)

/-- C4: two claim requests by the same user under a one-claim-per-window
policy, interleaved at the external mint await as the running system's
event loop allows, both succeed and two claim records are persisted — the
code lacks the per-user mutual exclusion the specification requires, so
"exactly one success, at most one award" fails. -/
theorem claim_C4_double_award :
    (claim_concurrent_same_user psLit dbTwo 7 "alice" none none 1000 envA envB).1 =
        ClaimResult.ok ⟨"codeA", 1, 0, false, "B"⟩ ∧
      (claim_concurrent_same_user psLit dbTwo 7 "alice" none none 1000 envA envB).2.1 =
        ClaimResult.ok ⟨"codeB", 1, 0, false, "B"⟩ ∧
      ((claim_concurrent_same_user psLit dbTwo 7 "alice" none none 1000
          envA envB).2.2.claim_records.filter fun r => decide (r.user_id = 7)).length = 2 := by
  decide

end Coupon
